import Mathlib

/-!
Shallow embedding of the ChatScaleHub real-time message distribution core.

Server side (apps/server/src/services/socket.ts): the event:message handler
builds a canonical message object from an inbound draft, fans it out locally
(room-scoped via io.to when a conversationId is present, globally via io.emit
otherwise) and publishes it on the Redis channel named Messages when a pub
client exists. The Redis subscription handler re-emits parsed payloads to all
local connections and never re-publishes; payloads failing JSON.parse are
dropped with a warning. The join_room handler joins the socket to the room and
acks with joined_room.

Client side (SocketProvider.tsx and page.tsx): sendMessage builds an
optimistic message and appends it when connected; onMessageReceived
reconciles an incoming message into the local list by replace-on-id-match,
else append; handleSend guards on trimmed-empty text and on the connected
flag; user:typing and user:stop-typing listeners maintain the typingUsers
list.

External collaborators (the socket.io transport, Redis, JSON.parse, Date.now,
Math.random) are modelled as parameters: socket ids, timestamps, temp-id
randomness and parse outcomes are inputs to the embedded functions.
-/

/-- MessageShape from socket.ts (identical to the Message type of
SocketProvider.tsx): optional fields are Option, required fields are total. -/
structure MessageShape where
  id : String
  conversationId : Option String
  senderId : String
  senderName : Option String
  text : String
  createdAt : String
deriving Repr, DecidableEq

/-- JavaScript truthiness of an optional string field: undefined and the empty
string are falsy. -/
def jsTruthy (x : Option String) : Bool :=
  match x with
  | some s => s != ""
  | none => false

/-- JavaScript `x || d` for an optional string x: yields d when x is undefined
or the empty string. -/
def jsOr (x : Option String) (d : String) : String :=
  match x with
  | some s => if s = "" then d else s
  | none => d

/-- Digit character for base 36, matching JavaScript Number.toString(36):
0-9 then lowercase a-z. -/
def base36Digit (n : Nat) : Char :=
  if n < 10 then Char.ofNat (48 + n) else Char.ofNat (87 + n)

/-- Base-36 rendering of a natural number, as JavaScript Number.toString(36)
produces for non-negative integers. The fuel argument bounds the digit count;
it never runs out when started at the number itself, because the value shrinks
strictly at each step. -/
def natToBase36Core : Nat → Nat → List Char → List Char
  | 0, n, acc => base36Digit n :: acc
  | fuel + 1, n, acc =>
      if n < 36 then base36Digit n :: acc
      else natToBase36Core fuel (n / 36) (base36Digit (n % 36) :: acc)

def natToBase36 (n : Nat) : String :=
  String.mk (natToBase36Core n n [])

/-- Synthesized temporary id, from the server expression
`tmp_ + Date.now().toString(36)` with the current epoch milliseconds as
input. -/
def tmpIdOf (nowMs : Nat) : String :=
  "tmp_" ++ natToBase36 nowMs

/-- Inbound event:message payload: either a bare string or an object whose
fields may each be absent (the handler branches on `typeof msg === string`). -/
inductive InboundMsg where
  | str (s : String)
  | obj (id conversationId senderId senderName text message createdAt : Option String)
deriving Repr, DecidableEq

/-- The messageObject construction of the event:message handler in socket.ts:
a bare string becomes a message with synthesized id, the socket id as sender,
and the current ISO time; an object draft keeps its fields with
`msg.id || tmp`, `msg.senderId || socket.id`, `msg.text ?? msg.message ?? `
empty, `msg.createdAt || now`. -/
def buildMessageObject (msg : InboundMsg) (socketId : String) (nowMs : Nat)
    (nowIso : String) : MessageShape :=
  match msg with
  | .str s =>
      { id := tmpIdOf nowMs, conversationId := none, senderId := socketId,
        senderName := none, text := s, createdAt := nowIso }
  | .obj mid mcid msid msname mtext mmessage mcreatedAt =>
      { id := jsOr mid (tmpIdOf nowMs),
        conversationId := mcid,
        senderId := jsOr msid socketId,
        senderName := msname,
        text := (mtext.orElse fun _ => mmessage).getD "",
        createdAt := jsOr mcreatedAt nowIso }

/-- One live socket connection: its transport-assigned id and the set of rooms
it has joined (socket.join). -/
structure Conn where
  sid : String
  rooms : List String
deriving Repr, DecidableEq

/-- The local connections of one server instance. -/
structure ServerState where
  conns : List Conn
deriving Repr, DecidableEq

/-- Recipient socket ids of the local fanout branch of the event:message
handler: `io.to(conversationId).emit` when conversationId is truthy, `io.emit`
to every connection otherwise. -/
def localFanout (st : ServerState) (m : MessageShape) : List String :=
  if jsTruthy m.conversationId then
    (st.conns.filter fun c => c.rooms.contains (m.conversationId.getD "")).map Conn.sid
  else
    st.conns.map Conn.sid

/-- Observable effects of one run of the event:message handler: the local
deliveries (target socket id paired with the message) and the payloads
published on the Messages channel. -/
structure HandlerResult where
  emitted : List (String × MessageShape)
  published : List MessageShape
deriving Repr, DecidableEq

/-- The event:message handler of socket.ts: build the message object, fan out
locally, then publish to the Messages channel iff this.pub exists (hasPub). -/
def handleEventMessage (hasPub : Bool) (st : ServerState) (socketId : String)
    (msg : InboundMsg) (nowMs : Nat) (nowIso : String) : HandlerResult :=
  let mo := buildMessageObject msg socketId nowMs nowIso
  { emitted := (localFanout st mo).map fun sid => (sid, mo),
    published := if hasPub then [mo] else [] }

/-- Outcome of JSON.parse on a relayed payload, modelling the external
JavaScript builtin: either a parsed MessageShape or a thrown error. -/
inductive ParseResult where
  | ok (m : MessageShape)
  | err (e : String)
deriving Repr, DecidableEq

/-- Observable effects of the Redis subscription handler: local deliveries,
payloads re-published (the handler never publishes), and warnings logged. -/
structure RelayResult where
  emitted : List (String × MessageShape)
  published : List MessageShape
  warnings : Nat
deriving Repr, DecidableEq

/-- The sub.on message handler of the SocketService constructor: on the
Messages channel, a payload that parses is emitted to all local connections
via io.emit; a payload that fails to parse logs a warning and is dropped.
Nothing is ever published from this handler. -/
def subOnMessage (st : ServerState) (channel : String) (pr : ParseResult) :
    RelayResult :=
  if channel = "Messages" then
    match pr with
    | .ok m => { emitted := st.conns.map fun c => (c.sid, m), published := [], warnings := 0 }
    | .err _ => { emitted := [], published := [], warnings := 1 }
  else { emitted := [], published := [], warnings := 0 }

/-- Events the server can emit to the joining socket or to others, matching
the outbound event names of the spec section 6. -/
inductive OutEvent where
  | joinedRoom (roomId : String)
  | usersOnline (users : List String)
  | userJoined (userId : String)
  | userLeft (userId : String)
deriving Repr, DecidableEq

/-- Discriminator for the users:online snapshot event. -/
def isUsersOnline : OutEvent → Bool
  | OutEvent.usersOnline _ => true
  | _ => false

/-- Discriminator for the joined_room ack event. -/
def isJoinedRoom : OutEvent → Bool
  | OutEvent.joinedRoom _ => true
  | _ => false

/-- The join_room handler of socket.ts: when the payload and its roomId are
truthy, join the room (socket.join, idempotent set add) and ack with
joined_room; otherwise do nothing. Returns the new room set of the socket and
the events emitted to the joining socket. -/
def handleJoinRoom (payload : Option String) (rooms : List String) :
    List String × List OutEvent :=
  match payload with
  | some roomId =>
      if roomId = "" then (rooms, [])
      else ((if rooms.contains roomId then rooms else rooms ++ [roomId]),
            [OutEvent.joinedRoom roomId])
  | none => (rooms, [])

/-- The onMessageReceived reconciliation of SocketProvider.tsx: if some entry
of the local list has the incoming id, replace every matching entry with the
incoming message; otherwise append the incoming message at the end. -/
def reconcile (prev : List MessageShape) (msg : MessageShape) :
    List MessageShape :=
  if prev.any fun m => m.id == msg.id then
    prev.map fun m => if m.id == msg.id then msg else m
  else prev ++ [msg]

/-- Observable effects of the client sendMessage call: the messages emitted on
the socket and the resulting local message list. -/
structure ClientSendResult where
  emitted : List MessageShape
  messages : List MessageShape
deriving Repr, DecidableEq

/-- The sendMessage callback of SocketProvider.tsx: when the socket is absent
or not connected, warn and return without emitting or appending; otherwise
build the optimistic message with a fresh temp id and both emit it and append
it to the local list. The temp id and ISO timestamp are inputs since they come
from Date.now and Math.random. -/
def sendMessage (connected : Bool) (prev : List MessageShape)
    (text currentUserId currentUserName tempId nowIso : String) :
    ClientSendResult :=
  if !connected then { emitted := [], messages := prev }
  else
    let msg : MessageShape :=
      { id := tempId, conversationId := none, senderId := currentUserId,
        senderName := some currentUserName, text := text, createdAt := nowIso }
    { emitted := [msg], messages := prev ++ [msg] }

/-- Model of the JavaScript String.prototype.trim builtin (an external
collaborator of the client code): drop leading and trailing whitespace
characters. -/
def jsTrim (s : String) : String :=
  String.mk (((s.data.dropWhile Char.isWhitespace).reverse.dropWhile
    Char.isWhitespace).reverse)

/-- The handleSend function of page.tsx: returns the text passed to
sendMessage, or none when no send happens. Guards in order: trimmed-empty
message, disconnected socket, missing username. -/
def handleSend (message : String) (connected : Bool) (hasUsername : Bool) :
    Option String :=
  if jsTrim message = "" then none
  else if !connected then none
  else if !hasUsername then none
  else some (jsTrim message)

/-- The user:typing listener of SocketProvider.tsx: add the username to
typingUsers unless already present. -/
def onUserTyping (typingUsers : List String) (username : String) :
    List String :=
  if typingUsers.contains username then typingUsers
  else typingUsers ++ [username]

/-- The user:stop-typing listener of SocketProvider.tsx: remove the username
from typingUsers. -/
def onUserStopTyping (typingUsers : List String) (username : String) :
    List String :=
  typingUsers.filter fun name => name != username

/-- The typing events the client reacts to. The code registers no other
handler that modifies typingUsers and sets no timer. -/
inductive TypingEvent where
  | typing (username : String)
  | stopTyping (username : String)
deriving Repr, DecidableEq

/-- One transition of the client typingUsers state, dispatching to the two
registered listeners. -/
def stepTyping (typingUsers : List String) (e : TypingEvent) : List String :=
  match e with
  | .typing u => onUserTyping typingUsers u
  | .stopTyping u => onUserStopTyping typingUsers u

/-- Replacing every entry whose id matches the canonical message, inside a
list that is a unique optimistic copy appended to a match-free list, yields
the list with the canonical copy appended: the optimistic copy is replaced,
never duplicated. -/
theorem reconcile_replaces_unique (prev : List MessageShape)
    (optim canon : MessageShape) (hoc : optim.id = canon.id)
    (h0 : (prev.countP fun m => m.id == canon.id) = 0) :
    reconcile (prev ++ [optim]) canon = prev ++ [canon] := by
  have hall : ∀ m ∈ prev, ¬((m.id == canon.id) = true) :=
    List.countP_eq_zero.mp h0
  have hany : ((prev ++ [optim]).any fun m => m.id == canon.id) = true := by
    simp [List.any_append, hoc]
  simp only [reconcile, hany, if_true]
  rw [List.map_append]
  have hprev : (prev.map fun m => if m.id == canon.id then canon else m) = prev := by
    have := List.map_congr_left (l := prev)
      (f := fun m => if m.id == canon.id then canon else m) (g := id) ?_
    · simpa using this
    · intro a ha
      have := hall a ha
      simp only [id]
      rw [if_neg this]
  rw [hprev]
  simp [hoc]

/-- Claim C2: a draft submitted with a non-empty client id T yields a
canonical message whose id equals T; with the id absent or empty, and for a
bare-string draft (which carries no id), the server synthesizes the temporary
id from the current time. -/
theorem c2_canonical_id_assignment (T : String) (hT : T ≠ "")
    (mcid msid msname mtext mmessage mca : Option String)
    (socketId : String) (nowMs : Nat) (nowIso : String) (s : String) :
    (buildMessageObject (InboundMsg.obj (some T) mcid msid msname mtext mmessage mca)
        socketId nowMs nowIso).id = T ∧
    (buildMessageObject (InboundMsg.obj none mcid msid msname mtext mmessage mca)
        socketId nowMs nowIso).id = tmpIdOf nowMs ∧
    (buildMessageObject (InboundMsg.obj (some "") mcid msid msname mtext mmessage mca)
        socketId nowMs nowIso).id = tmpIdOf nowMs ∧
    (buildMessageObject (InboundMsg.str s) socketId nowMs nowIso).id = tmpIdOf nowMs := by
  refine ⟨?_, rfl, ?_, rfl⟩
  · simp [buildMessageObject, jsOr, hT]
  · simp [buildMessageObject, jsOr]

/-- Witness for claim C2 at the concrete draft of the spec test:
submitting id tmp_1 yields canonical id tmp_1. -/
theorem c2_witness :
    (buildMessageObject (InboundMsg.obj (some "tmp_1") none (some "u1") none
        (some "hi") none (some "t")) "S" 0 "t0").id = "tmp_1" :=
  (c2_canonical_id_assignment "tmp_1" (by decide) none (some "u1") none
    (some "hi") none (some "t") "S" 0 "t0" "x").1

/-- Claim C3: client reconciliation is replace-by-id, else append: when some
entry matches the incoming id the list is rewritten with matches replaced and
its length unchanged; when none matches the incoming message is appended at
the end; and the optimistic copy appended by sendMessage under a fresh temp id
is replaced, not duplicated, when the canonical copy with the same id
arrives. -/
theorem c3_replace_by_id_else_append (prev : List MessageShape)
    (msg : MessageShape) (text uid uname tempId nowIso : String) :
    ((prev.any fun m => m.id == msg.id) = true →
      reconcile prev msg = (prev.map fun m => if m.id == msg.id then msg else m) ∧
      (reconcile prev msg).length = prev.length) ∧
    ((prev.any fun m => m.id == msg.id) = false →
      reconcile prev msg = prev ++ [msg]) ∧
    ((prev.countP fun m => m.id == tempId) = 0 →
      ∀ canon : MessageShape, canon.id = tempId →
        reconcile (sendMessage true prev text uid uname tempId nowIso).messages canon =
          prev ++ [canon]) := by
  refine ⟨?_, ?_, ?_⟩
  · intro h
    constructor
    · simp [reconcile, h]
    · simp [reconcile, h]
  · intro h
    simp [reconcile, h]
  · intro h0 canon hid
    subst hid
    exact reconcile_replaces_unique prev
      { id := canon.id, conversationId := none, senderId := uid,
        senderName := some uname, text := text, createdAt := nowIso }
      canon rfl h0

/-- Witness for claim C3: a matching incoming message replaces the sole
entry; a non-matching one is appended to the empty list; and the optimistic
copy appended by a connected send is replaced by the canonical copy carrying
the same temp id. -/
theorem c3_witness :
    reconcile [⟨"tmp_1", none, "u1", some "n", "hi", "t1"⟩]
        ⟨"tmp_1", none, "u1", some "n", "hi", "t2"⟩ =
      [⟨"tmp_1", none, "u1", some "n", "hi", "t2"⟩] ∧
    reconcile [] ⟨"m2", none, "u2", none, "yo", "t3"⟩ =
      [⟨"m2", none, "u2", none, "yo", "t3"⟩] ∧
    reconcile (sendMessage true [] "hi" "u1" "n" "tmp_9" "t4").messages
        ⟨"tmp_9", none, "u1", some "n", "hi", "t5"⟩ =
      [⟨"tmp_9", none, "u1", some "n", "hi", "t5"⟩] := by
  refine ⟨?_, ?_, ?_⟩
  · have h := (c3_replace_by_id_else_append
      [⟨"tmp_1", none, "u1", some "n", "hi", "t1"⟩]
      ⟨"tmp_1", none, "u1", some "n", "hi", "t2"⟩ "x" "u" "n" "z" "t").1
      (by decide)
    exact h.1.trans (by decide)
  · exact (c3_replace_by_id_else_append []
      ⟨"m2", none, "u2", none, "yo", "t3"⟩ "x" "u" "n" "z" "t").2.1 (by decide)
  · exact (c3_replace_by_id_else_append []
      ⟨"m2", none, "u2", none, "yo", "t3"⟩ "hi" "u1" "n" "tmp_9" "t4").2.2
      (by decide) ⟨"tmp_9", none, "u1", some "n", "hi", "t5"⟩ rfl

/-- Claim C1 counterexample: a draft whose text is whitespace-only is not
rejected by the server: with one connection and a pub client the
event:message handler still fans out locally and publishes to the relay
topic. -/
theorem c1_counterexample :
    (buildMessageObject (InboundMsg.obj none none (some "u1") none
        (some "   ") none none) "A" 0 "t0").text = "   " ∧
    jsTrim "   " = "" ∧
    (handleEventMessage true ⟨[⟨"A", []⟩]⟩ "A"
        (InboundMsg.obj none none (some "u1") none (some "   ") none none)
        0 "t0").emitted ≠ [] ∧
    (handleEventMessage true ⟨[⟨"A", []⟩]⟩ "A"
        (InboundMsg.obj none none (some "u1") none (some "   ") none none)
        0 "t0").published ≠ [] :=
  ⟨rfl, by decide, by decide, by decide⟩

/-- Claim C1 amended: the trimmed-empty guard lives only on the client:
handleSend sends nothing when the composer text trims to empty, while the
server event:message handler publishes and fans out every draft no matter
what its text is. -/
theorem c1_amended_empty_guard_is_client_side :
    (∀ message connected hasUsername, jsTrim message = "" →
      handleSend message connected hasUsername = none) ∧
    (∀ st socketId msg nowMs nowIso,
      (handleEventMessage true st socketId msg nowMs nowIso).published =
        [buildMessageObject msg socketId nowMs nowIso] ∧
      (handleEventMessage true st socketId msg nowMs nowIso).emitted =
        (localFanout st (buildMessageObject msg socketId nowMs nowIso)).map
          fun sid => (sid, buildMessageObject msg socketId nowMs nowIso)) := by
  constructor
  · intro message connected hasUsername h
    simp [handleSend, h]
  · intro st socketId msg nowMs nowIso
    exact ⟨rfl, rfl⟩

/-- Witness for the amended claim C1: the whitespace-only composer text of
the spec test is rejected by the client guard. -/
theorem c1_witness : handleSend "   " true true = none :=
  c1_amended_empty_guard_is_client_side.1 "   " true true (by decide)

/-- Claim C4 counterexample: with connections A and B in room X and C not in
X, local fanout of a message to room X reaches exactly A and B, but the same
message arriving through the relay subscription is emitted to every local
connection, C included. -/
theorem c4_counterexample :
    localFanout ⟨[⟨"A", ["X"]⟩, ⟨"B", ["X"]⟩, ⟨"C", []⟩]⟩
        ⟨"m1", some "X", "u1", none, "hi", "t"⟩ = ["A", "B"] ∧
    ("C", (⟨"m1", some "X", "u1", none, "hi", "t"⟩ : MessageShape)) ∈
      (subOnMessage ⟨[⟨"A", ["X"]⟩, ⟨"B", ["X"]⟩, ⟨"C", []⟩]⟩ "Messages"
        (ParseResult.ok ⟨"m1", some "X", "u1", none, "hi", "t"⟩)).emitted :=
  ⟨by decide, by decide⟩

/-- Claim C4 amended: the local fanout branch is room-scoped (a socket id is
a recipient iff some connection with that id is a member of the room), but
the relay delivery path emits to every local connection regardless of
membership. -/
theorem c4_amended_scoping (st : ServerState) (m : MessageShape)
    (room : String) (hroom : m.conversationId = some room) (hne : room ≠ "")
    (s : String) :
    (s ∈ localFanout st m ↔
      ∃ c ∈ st.conns, c.sid = s ∧ c.rooms.contains room = true) ∧
    (∀ c ∈ st.conns,
      (c.sid, m) ∈ (subOnMessage st "Messages" (ParseResult.ok m)).emitted) := by
  constructor
  · have ht : jsTruthy m.conversationId = true := by
      rw [hroom]
      simpa [jsTruthy] using hne
    unfold localFanout
    rw [if_pos ht, hroom]
    simp only [Option.getD_some, List.mem_map, List.mem_filter]
    constructor
    · rintro ⟨c, ⟨hc, hr⟩, hs⟩
      exact ⟨c, hc, hs, hr⟩
    · rintro ⟨c, hc, hs, hr⟩
      exact ⟨c, ⟨hc, hr⟩, hs⟩
  · intro c hc
    unfold subOnMessage
    rw [if_pos rfl]
    simp only [List.mem_map]
    exact ⟨c, hc, rfl⟩

/-- Witness for the amended claim C4: in a state with connection A inside
room X and connection C outside it, membership in the local fanout of a
room-X message is equivalent to room membership, and the relay path delivers
to both connections. -/
theorem c4_witness :
    (("A" : String) ∈ localFanout ⟨[⟨"A", ["X"]⟩, ⟨"C", []⟩]⟩
        ⟨"m1", some "X", "u1", none, "hi", "t"⟩ ↔
      ∃ c ∈ ([⟨"A", ["X"]⟩, ⟨"C", []⟩] : List Conn),
        c.sid = "A" ∧ c.rooms.contains "X" = true) ∧
    (∀ c ∈ ([⟨"A", ["X"]⟩, ⟨"C", []⟩] : List Conn),
      (c.sid, (⟨"m1", some "X", "u1", none, "hi", "t"⟩ : MessageShape)) ∈
        (subOnMessage ⟨[⟨"A", ["X"]⟩, ⟨"C", []⟩]⟩ "Messages"
          (ParseResult.ok ⟨"m1", some "X", "u1", none, "hi", "t"⟩)).emitted) :=
  c4_amended_scoping ⟨[⟨"A", ["X"]⟩, ⟨"C", []⟩]⟩
    ⟨"m1", some "X", "u1", none, "hi", "t"⟩ "X" rfl (by decide) "A"

/-- Claim C5: the relay subscription handler never publishes and only
delivers locally to every connection, while a local submit with a pub client
publishes exactly one payload, so across the originating handler and any
number of relay-processing instances each message appears on the topic
exactly once. -/
theorem c5_relay_loop_prevention (st : ServerState) (socketId : String)
    (msg : InboundMsg) (nowMs : Nat) (nowIso : String)
    (others : List ServerState) (m : MessageShape) :
    (∀ st2 channel pr, (subOnMessage st2 channel pr).published = []) ∧
    (∀ st2, (subOnMessage st2 "Messages" (ParseResult.ok m)).emitted =
      st2.conns.map fun c => (c.sid, m)) ∧
    ((handleEventMessage true st socketId msg nowMs nowIso).published.length +
      (others.map fun st2 =>
        (subOnMessage st2 "Messages" (ParseResult.ok m)).published.length).sum = 1) := by
  refine ⟨?_, fun st2 => rfl, ?_⟩
  · intro st2 channel pr
    by_cases h : channel = "Messages"
    · subst h
      cases pr <;> rfl
    · simp [subOnMessage, h]
  · have hz : (others.map fun st2 =>
        (subOnMessage st2 "Messages" (ParseResult.ok m)).published.length).sum = 0 := by
      induction others with
      | nil => rfl
      | cons a t ih =>
          simp only [List.map_cons, List.sum_cons]
          rw [show (subOnMessage a "Messages" (ParseResult.ok m)).published.length
              = 0 from rfl, ih]
    rw [hz]
    rfl

/-- Claim C6 counterexample: after a typing event for user u puts u into the
typing list, no event other than the explicit stop event for u removes u:
the code has no expiry transition, so no stop ever arises from elapsed time
alone. -/
theorem c6_counterexample :
    stepTyping [] (TypingEvent.typing "u") = ["u"] ∧
    ¬ ∃ e : TypingEvent, e ≠ TypingEvent.stopTyping "u" ∧
      "u" ∉ stepTyping ["u"] e := by
  refine ⟨rfl, ?_⟩
  rintro ⟨e, hne, hnot⟩
  apply hnot
  cases e with
  | typing v =>
      by_cases h : v = "u" <;>
        simp [stepTyping, onUserTyping, h]
  | stopTyping v =>
      have hv : v ≠ "u" := fun hv => hne (by rw [hv])
      simp [stepTyping, onUserStopTyping, List.mem_filter]
      exact fun h => hv h.symm

/-- Claim C6 amended: for a user currently in the typing list, a transition
removes the user exactly when it is the explicit stop event for that user;
there is no expiry-based auto-clear. -/
theorem c6_amended_clear_only_on_stop (tu : List String) (u : String)
    (e : TypingEvent) (hu : u ∈ tu) :
    u ∉ stepTyping tu e ↔ e = TypingEvent.stopTyping u := by
  cases e with
  | typing v =>
      constructor
      · intro hnot
        exfalso
        apply hnot
        by_cases h : v ∈ tu <;>
          simp [stepTyping, onUserTyping, h, hu]
      · intro h
        cases h
  | stopTyping v =>
      simp only [stepTyping, onUserStopTyping, List.mem_filter,
        TypingEvent.stopTyping.injEq]
      constructor
      · intro hnot
        by_contra hvu
        exact hnot ⟨hu, by simpa using fun h => hvu h.symm⟩
      · rintro rfl
        intro hmem
        simpa using hmem.2

/-- Witness for the amended claim C6: the explicit stop event for user u
removes u from the singleton typing list. -/
theorem c6_witness :
    ("u" ∉ stepTyping ["u"] (TypingEvent.stopTyping "u")) ↔
      TypingEvent.stopTyping "u" = TypingEvent.stopTyping "u" :=
  c6_amended_clear_only_on_stop ["u"] "u" (TypingEvent.stopTyping "u")
    (by simp)

/-- Claim C7 counterexample: joining room X emits only the joined_room ack;
no users:online snapshot is sent to the joining client. -/
theorem c7_counterexample :
    (handleJoinRoom (some "X") []).2 = [OutEvent.joinedRoom "X"] ∧
    ((handleJoinRoom (some "X") []).2.any isUsersOnline) = false :=
  ⟨by decide, by decide⟩

/-- Claim C7 amended: every event the join_room handler sends is a
joined_room ack: exactly one when the payload carries a truthy room id, none
otherwise, and never a users:online snapshot. -/
theorem c7_amended_join_emits_only_ack (payload : Option String)
    (rooms : List String) :
    ((handleJoinRoom payload rooms).2.all isJoinedRoom) = true ∧
    ((handleJoinRoom payload rooms).2.any isUsersOnline) = false ∧
    (jsTruthy payload = true →
      (handleJoinRoom payload rooms).2 =
        [OutEvent.joinedRoom (payload.getD "")]) := by
  cases payload with
  | none =>
      exact ⟨rfl, rfl, fun h => by simp [jsTruthy] at h⟩
  | some r =>
      by_cases h : r = "" <;>
        simp [handleJoinRoom, jsTruthy, h, isJoinedRoom, isUsersOnline]

/-- Witness for the amended claim C7: joining room X from room set Y emits
exactly the joined_room ack for X. -/
theorem c7_witness :
    (handleJoinRoom (some "X") ["Y"]).2 = [OutEvent.joinedRoom "X"] :=
  (c7_amended_join_emits_only_ack (some "X") ["Y"]).2.2 (by decide)

/-- Claim C8: a payload on the Messages channel that fails to parse is
dropped by the subscription handler: nothing is delivered locally, nothing
is published, and exactly one warning is logged. -/
theorem c8_malformed_relay_dropped (st : ServerState) (e : String) :
    (subOnMessage st "Messages" (ParseResult.err e)).emitted = [] ∧
    (subOnMessage st "Messages" (ParseResult.err e)).published = [] ∧
    (subOnMessage st "Messages" (ParseResult.err e)).warnings = 1 :=
  ⟨rfl, rfl, rfl⟩

/-- Claim C9: a send attempted while the connection is down is rejected
locally: the sendMessage callback emits nothing and leaves the local message
list unchanged, and the handleSend guard likewise sends nothing when the
socket is not connected. -/
theorem c9_disconnected_send_rejected (prev : List MessageShape)
    (text currentUserId currentUserName tempId nowIso message : String)
    (hasUsername : Bool) :
    (sendMessage false prev text currentUserId currentUserName tempId nowIso).emitted = [] ∧
    (sendMessage false prev text currentUserId currentUserName tempId nowIso).messages = prev ∧
    handleSend message false hasUsername = none := by
  refine ⟨rfl, rfl, ?_⟩
  by_cases h : jsTrim message = "" <;> simp [handleSend, h]

/-- Claim C10: the event:message handler always yields a message whose id,
senderId, text and createdAt are total string fields: a bare-string payload
gets the synthesized id, the socket id as sender and the current time; for
an object payload a missing or empty id is synthesized, a missing senderId
defaults to the socket id, a missing text falls back to the message field
and then to the empty string, and a missing createdAt defaults to the
current ISO time. -/
theorem c10_normalization_defaults (s socketId nowIso : String) (nowMs : Nat)
    (mid mcid msid msname mtext mmessage mca : Option String) :
    (buildMessageObject (InboundMsg.str s) socketId nowMs nowIso =
      { id := tmpIdOf nowMs, conversationId := none, senderId := socketId,
        senderName := none, text := s, createdAt := nowIso }) ∧
    ((mid = none ∨ mid = some "") →
      (buildMessageObject (InboundMsg.obj mid mcid msid msname mtext mmessage mca)
          socketId nowMs nowIso).id = tmpIdOf nowMs) ∧
    (msid = none →
      (buildMessageObject (InboundMsg.obj mid mcid msid msname mtext mmessage mca)
          socketId nowMs nowIso).senderId = socketId) ∧
    (mtext = none →
      (buildMessageObject (InboundMsg.obj mid mcid msid msname mtext mmessage mca)
          socketId nowMs nowIso).text = mmessage.getD "") ∧
    (mca = none →
      (buildMessageObject (InboundMsg.obj mid mcid msid msname mtext mmessage mca)
          socketId nowMs nowIso).createdAt = nowIso) := by
  refine ⟨rfl, ?_, ?_, ?_, ?_⟩
  · rintro (rfl | rfl) <;> simp [buildMessageObject, jsOr]
  · rintro rfl
    simp [buildMessageObject, jsOr]
  · rintro rfl
    simp [buildMessageObject]
  · rintro rfl
    simp [buildMessageObject, jsOr]

/-- Witness for claim C10: an object payload with every field absent is
normalized to the synthesized id, the socket id, the empty text and the
current time. -/
theorem c10_witness :
    (buildMessageObject (InboundMsg.obj none none none none none none none)
        "S" 0 "t0").id = tmpIdOf 0 ∧
    (buildMessageObject (InboundMsg.obj none none none none none none none)
        "S" 0 "t0").senderId = "S" ∧
    (buildMessageObject (InboundMsg.obj none none none none none none none)
        "S" 0 "t0").text = "" ∧
    (buildMessageObject (InboundMsg.obj none none none none none none none)
        "S" 0 "t0").createdAt = "t0" :=
  ⟨(c10_normalization_defaults "x" "S" "t0" 0 none none none none none none none).2.1
      (Or.inl rfl),
    (c10_normalization_defaults "x" "S" "t0" 0 none none none none none none none).2.2.1 rfl,
    (c10_normalization_defaults "x" "S" "t0" 0 none none none none none none none).2.2.2.1 rfl,
    (c10_normalization_defaults "x" "S" "t0" 0 none none none none none none none).2.2.2.2 rfl⟩
